import Mathlib

/-!
Verification of the NAS-Bench-201 run library (run_lib.py) of DiffusionNAG.

Shallow embedding of the training/evaluation drivers:
* SDE schedule construction (lines 104-111, 243-250, 354-362),
* the scorenet/meta-surrogate training loops as event traces
  (lines 146-221 and 412-490),
* the best-checkpoint flag updates (lines 153-154/187-188 and 417-418/453-455),
* the cyclic dataloader pull (lines 156-160, 420-424),
* the standalone evaluation driver (lines 285-306),
* the EMA swap during snapshot sampling (lines 196-199, 463-466),
* the config compatibility check (lines 493-500),
* the task-dispatch dictionaries (lines 503-519).

Real-valued quantities (losses, correlations, noise bounds, epsilons) are
modelled as rationals; all constants involved are exact decimals.
-/

set_option maxHeartbeats 1000000
set_option maxRecDepth 100000

namespace DiffusionNAG

/-! ### SDE schedule construction (run_lib.py lines 104-111) -/

/-- Python `str.lower()` for the ASCII kind identifiers used here:
lowercase every character. -/
def strLower (s : String) : String :=
  String.mk (s.data.map Char.toLower)

/-- The scalar configuration fields consumed by the SDE branch of
`scorenet_train` / `scorenet_evaluate` / `meta_surrogate_train`. -/
structure SDEConfig where
  sde : String
  beta_min : ℚ
  beta_max : ℚ
  sigma_min : ℚ
  sigma_max : ℚ
  num_scales : ℕ
deriving DecidableEq

/-- The two schedule objects `sde_lib.VPSDE` / `sde_lib.VESDE` with the
parameters the driver passes to them. -/
inductive SDE where
  | vpsde (beta_min beta_max : ℚ) (N : ℕ)
  | vesde (sigma_min sigma_max : ℚ) (N : ℕ)
deriving DecidableEq

/-- Lines 104-111: branch on `config.training.sde.lower()`; return the
constructed schedule together with `sampling_eps`, or raise
`NotImplementedError` for an unknown kind. -/
def setupSDE (c : SDEConfig) : Except String (SDE × ℚ) :=
  if strLower c.sde = "vpsde" then
    Except.ok (SDE.vpsde c.beta_min c.beta_max c.num_scales, 1/1000)
  else if strLower c.sde = "vesde" then
    Except.ok (SDE.vesde c.sigma_min c.sigma_max c.num_scales, 1/100000)
  else
    Except.error ("SDE " ++ c.sde ++ " unknown.")

/-! ### The training loops as event traces -/

/-- The loop-control fields of the training config. -/
structure LoopCfg where
  initial_step : ℕ
  n_iters : ℕ
  eval_freq : ℕ
  snapshot_freq : ℕ
deriving DecidableEq

/-- Observable logger / checkpoint events of one run. -/
inductive LogEvent where
  /-- `write_log` with the full element set (evaluation step). -/
  | writeFull (step : ℕ)
  /-- `write_log` with the train-only element set. -/
  | writeTrain (step : ℕ)
  /-- `logger.reset()`. -/
  | logReset
  /-- `save_checkpoint(..., step, save_step, is_best)`. -/
  | saveCkpt (step save_step : ℕ)
  /-- `logger.save_log()`. -/
  | saveLog
deriving DecidableEq

/-- Line 191 / line 458:
`step != 0 and step % snapshot_freq == 0 or step == num_train_steps`
(Python precedence: `and` binds tighter than `or`). -/
def checkpointAt (step snapshot_freq n_iters : ℕ) : Bool :=
  (step != 0 && step % snapshot_freq == 0) || step == n_iters

/-- Recognizer for checkpoint events. -/
def is_ckpt_event : LogEvent → Bool
  | LogEvent.saveCkpt _ _ => true
  | _ => false

/-- Events of one `scorenet_train` loop iteration (lines 155-219):
optional checkpoint save, then the per-step `write_log`, then `reset`. -/
def scorenet_step_events (cfg : LoopCfg) (step : ℕ) : List LogEvent :=
  (if checkpointAt step cfg.snapshot_freq cfg.n_iters = true then
    [LogEvent.saveCkpt step (step / cfg.snapshot_freq)]
  else [])
  ++ (if step % cfg.eval_freq = 0 then [LogEvent.writeFull step]
      else [LogEvent.writeTrain step])
  ++ [LogEvent.logReset]

/-- The `for step in range(initial_step, num_train_steps+1)` body of
`scorenet_train`, flattened. -/
def scorenet_loop_events (cfg : LoopCfg) : List LogEvent :=
  ((List.range' cfg.initial_step (cfg.n_iters + 1 - cfg.initial_step)).map
    (scorenet_step_events cfg)).flatten

/-- Full event trace of `scorenet_train` after SDE setup: the loop body
followed by the final `logger.save_log()` (line 221). -/
def scorenet_run_events (cfg : LoopCfg) : List LogEvent :=
  scorenet_loop_events cfg ++ [LogEvent.saveLog]

/-- Events of one `meta_surrogate_train` loop iteration (lines 419-490);
same skeleton as the scorenet loop. -/
def meta_step_events (cfg : LoopCfg) (step : ℕ) : List LogEvent :=
  (if checkpointAt step cfg.snapshot_freq cfg.n_iters = true then
    [LogEvent.saveCkpt step (step / cfg.snapshot_freq)]
  else [])
  ++ (if step % cfg.eval_freq = 0 then [LogEvent.writeFull step]
      else [LogEvent.writeTrain step])
  ++ [LogEvent.logReset]

/-- The loop body of `meta_surrogate_train`, flattened. -/
def meta_loop_events (cfg : LoopCfg) : List LogEvent :=
  ((List.range' cfg.initial_step (cfg.n_iters + 1 - cfg.initial_step)).map
    (meta_step_events cfg)).flatten

/-- Full event trace of `meta_surrogate_train` after SDE setup: the
function ends with `logger.reset()` inside the loop; there is no
`save_log()` call after the loop (lines 485-490). -/
def meta_run_events (cfg : LoopCfg) : List LogEvent :=
  meta_loop_events cfg

/-- `scorenet_train`: SDE setup happens before the loop; an unknown SDE
kind raises before any training step executes. -/
def scorenet_train (sc : SDEConfig) (cfg : LoopCfg) :
    Except String (List LogEvent) :=
  match setupSDE sc with
  | Except.ok _ => Except.ok (scorenet_run_events cfg)
  | Except.error e => Except.error e

/-- `meta_surrogate_train`: same gating by SDE setup. -/
def meta_surrogate_train (sc : SDEConfig) (cfg : LoopCfg) :
    Except String (List LogEvent) :=
  match setupSDE sc with
  | Except.ok _ => Except.ok (meta_run_events cfg)
  | Except.error e => Except.error e

/-! ### The best-checkpoint flag -/

/-- Lines 187-188 of `scorenet_train`:
`if logger.logs['test_loss'].avg < min_test_loss: is_best = True`.
The pair is `(is_best, min_test_loss)`; note that the code updates
neither `min_test_loss` nor ever resets `is_best`. -/
def scorenetEvalStep : Bool × ℚ → ℚ → Bool × ℚ
  | (is_best, min_test_loss), avg =>
    if avg < min_test_loss then (true, min_test_loss) else (is_best, min_test_loss)

/-- The `is_best` flag after the given sequence of evaluation-boundary
mean test losses, starting from `is_best = False`, `min_test_loss = 1e05`
(lines 153-154). -/
def scorenet_is_best_after (avgs : List ℚ) : Bool :=
  (avgs.foldl scorenetEvalStep (false, 100000)).1

/-- Modelled from the spec sentence for C1: `is_best` is true iff the
current mean test loss is strictly below the minimum of the sentinel
`1e5` and all earlier boundary means. -/
def spec_is_best_scorenet (earlier : List ℚ) (cur : ℚ) : Bool :=
  decide (cur < earlier.foldl min 100000)

/-- Lines 453-455 of `meta_surrogate_train`:
`if eval_p_corr > max_eval_p_corr: is_best = True; max_eval_p_corr = eval_p_corr`.
The pair is `(is_best, max_eval_p_corr)`; the maximum is updated, the flag
is never reset. -/
def metaEvalStep : Bool × ℚ → ℚ → Bool × ℚ
  | (is_best, max_corr), c =>
    if max_corr < c then (true, c) else (is_best, max_corr)

/-- The `is_best` flag after the given sequence of evaluation-boundary
Pearson correlations, starting from `is_best = False`,
`max_eval_p_corr = -1` (lines 417-418). -/
def meta_is_best_after (corrs : List ℚ) : Bool :=
  (corrs.foldl metaEvalStep (false, -1)).1

/-- Modelled from the spec sentence for C2: `is_best` is true iff the
current Pearson correlation strictly exceeds the maximum of the sentinel
`-1` and all earlier boundary correlations. -/
def spec_is_best_meta (earlier : List ℚ) (cur : ℚ) : Bool :=
  decide (earlier.foldl max (-1) < cur)

/-! ### The cyclic dataloader pull (lines 156-160 / 420-424) -/

/-- `try: next(train_iter) except StopIteration: train_iter = iter(train_loader);
next(train_iter)`. The iterator is the list of not-yet-consumed batches;
`Except.error ()` is an uncaught `StopIteration`. -/
def pullBatch {α : Type} (loader : List α) : List α → Except Unit (α × List α)
  | b :: rest => Except.ok (b, rest)
  | [] =>
    match loader with
    | b :: rest => Except.ok (b, rest)
    | [] => Except.error ()

/-- `n` successive batch pulls inside one loop pass, returning the batches
obtained and the final iterator state. -/
def pullN {α : Type} (loader : List α) : ℕ → List α → Except Unit (List α × List α)
  | 0, it => Except.ok ([], it)
  | n + 1, it =>
    match pullBatch loader it with
    | Except.ok (b, it2) =>
      match pullN loader n it2 with
      | Except.ok (bs, itf) => Except.ok (b :: bs, itf)
      | Except.error e => Except.error e
    | Except.error e => Except.error e

/-! ### The standalone evaluation driver (lines 285-306) -/

/-- Line 285: `num_sampling_rounds = int(np.ceil(num_samples / batch_size))`,
i.e. the ceiling of the exact division for a positive batch size. -/
def numSamplingRounds (num_samples batch_size : ℕ) : ℕ :=
  (num_samples + batch_size - 1) / batch_size

/-- Result summary of `scorenet_evaluate`: the number of sampling rounds,
the architecture list handed (once) to `sampling_metrics`, and the step
index of the single `write_log` call. -/
structure EvalRun (α : Type) where
  numRounds : ℕ
  archList : List α
  logWriteStep : ℕ
deriving DecidableEq

/-- Lines 285-306: run `num_sampling_rounds` sampling rounds
(`sampleRound i` is round `i`'s quantized sample list), concatenate,
truncate to `num_samples`, evaluate the metrics once on the truncated list
and log under step index 1. -/
def scorenet_evaluate {α : Type} (num_samples batch_size : ℕ)
    (sampleRound : ℕ → List α) : EvalRun α :=
  let rounds := numSamplingRounds num_samples batch_size
  let all_samples := ((List.range rounds).map sampleRound).flatten
  { numRounds := rounds
    archList := all_samples.take num_samples
    logWriteStep := 1 }

/-! ### EMA weight swap during snapshot sampling (lines 196-199 / 463-466) -/

/-- `ExponentialMovingAverage`: the shadow parameters and the temporary
storage written by `ema.store`. -/
structure Ema (P : Type) where
  shadow : P
  collected : Option P

/-- `ema.store(model.parameters())`: stash the current parameters. -/
def Ema.store {P : Type} (e : Ema P) (current : P) : Ema P :=
  { shadow := e.shadow, collected := some current }

/-- `ema.copy_to(model.parameters())`: the shadow parameters become the
live parameters. -/
def Ema.copy_to {P : Type} (e : Ema P) : P :=
  e.shadow

/-- The `state` dict of the training loop:
`{optimizer, model, ema, step, config}`. -/
structure TrainState (P O C : Type) where
  params : P
  opt : O
  ema : Ema P
  step : ℕ
  config : C

/-- The snapshot-sampling block (lines 196-199 / 463-466):
`ema.store(model.parameters()); ema.copy_to(model.parameters())`, with no
`ema.restore` call anywhere afterwards; the sampler only reads the model. -/
def snapshot_sampling_block {P O C : Type} (s : TrainState P O C) :
    TrainState P O C :=
  let ema1 := Ema.store s.ema s.params
  { params := Ema.copy_to ema1
    opt := s.opt
    ema := ema1
    step := s.step
    config := s.config }

/-! ### The config compatibility check (lines 493-500) -/

/-- Exactly the 7 scalar fields compared by `check_config`. -/
structure CheckedConfig where
  sigma_min : ℚ
  sigma_max : ℚ
  sde : String
  continuous : Bool
  centered : Bool
  max_node : ℕ
  n_vocab : ℕ
deriving DecidableEq

/-- Lines 493-500: seven sequential `assert` statements; the first failing
one raises `AssertionError`. -/
def check_config (c1 c2 : CheckedConfig) : Except String Unit :=
  if c1.sigma_min ≠ c2.sigma_min then Except.error "AssertionError"
  else if c1.sigma_max ≠ c2.sigma_max then Except.error "AssertionError"
  else if c1.sde ≠ c2.sde then Except.error "AssertionError"
  else if c1.continuous ≠ c2.continuous then Except.error "AssertionError"
  else if c1.centered ≠ c2.centered then Except.error "AssertionError"
  else if c1.max_node ≠ c2.max_node then Except.error "AssertionError"
  else if c1.n_vocab ≠ c2.n_vocab then Except.error "AssertionError"
  else Except.ok ()

/-! ### Task dispatch (lines 503-519) -/

/-- Tags for the three driver functions placed in the dispatch dicts. -/
inductive Task where
  | scorenet_train_task
  | meta_surrogate_train_task
  | scorenet_evaluate_task
deriving DecidableEq

/-- Python dict lookup `d[key]`: first matching key, `KeyError(key)` when
absent (the error value carries the missing key). -/
def dictLookup : List (String × Task) → String → Except String Task
  | [], k => Except.error k
  | (k1, v) :: rest, k => if k1 = k then Except.ok v else dictLookup rest k

/-- Lines 503-506. -/
def run_train_dict : List (String × Task) :=
  [("scorenet", Task.scorenet_train_task),
   ("meta_surrogate", Task.meta_surrogate_train_task)]

/-- Lines 509-511: only `scorenet` is registered for evaluation. -/
def run_eval_dict : List (String × Task) :=
  [("scorenet", Task.scorenet_evaluate_task)]

/-- Line 514-515: `run_train_dict[config.model_type](config)`. -/
def train (model_type : String) : Except String Task :=
  dictLookup run_train_dict model_type

/-- Line 518-519: `run_eval_dict[config.model_type](config)`. -/
def evaluate (model_type : String) : Except String Task :=
  dictLookup run_eval_dict model_type

/-! ### Example configurations used as concrete instances -/

/-- A variance-preserving config (upper-case kind identifier). -/
def cVP : SDEConfig :=
  { sde := "VPSDE", beta_min := 1/10, beta_max := 20,
    sigma_min := 1/100, sigma_max := 50, num_scales := 1000 }

/-- A variance-exploding config. -/
def cVE : SDEConfig :=
  { sde := "vesde", beta_min := 1/10, beta_max := 20,
    sigma_min := 1/100, sigma_max := 50, num_scales := 1000 }

/-- A config with an unsupported SDE kind. -/
def cBad : SDEConfig :=
  { sde := "edm", beta_min := 0, beta_max := 0,
    sigma_min := 0, sigma_max := 0, num_scales := 10 }

/-! ### Helper lemmas -/

lemma metaEvalStep_fst_true (cs : List ℚ) (p : Bool × ℚ) (hp : p.1 = true) :
    (cs.foldl metaEvalStep p).1 = true := by
  induction cs generalizing p with
  | nil => exact hp
  | cons c cs ih =>
    rcases p with ⟨pb, pm⟩
    simp only [List.foldl_cons]
    apply ih
    simp only [metaEvalStep]
    split
    · rfl
    · exact hp

lemma meta_fold_char (cs : List ℚ) (m : ℚ) :
    (cs.foldl metaEvalStep (false, m)).1 = true ↔
      ∃ i, ∃ h : i < cs.length, (cs.take i).foldl max m < cs.get ⟨i, h⟩ := by
  induction cs generalizing m with
  | nil => simp
  | cons c cs ih =>
    simp only [List.foldl_cons]
    by_cases hc : m < c
    · have hstep : metaEvalStep (false, m) c = (true, c) := by
        simp only [metaEvalStep]
        rw [if_pos hc]
      rw [hstep]
      constructor
      · intro _
        exact ⟨0, by simp, by simpa using hc⟩
      · intro _
        exact metaEvalStep_fst_true cs (true, c) rfl
    · have hstep : metaEvalStep (false, m) c = (false, m) := by
        simp only [metaEvalStep]
        rw [if_neg hc]
      rw [hstep, ih]
      have hmax : max m c = m := max_eq_left (le_of_not_lt hc)
      constructor
      · rintro ⟨i, hi, hgt⟩
        refine ⟨i + 1, by simpa using Nat.succ_lt_succ hi, ?_⟩
        simpa [hmax] using hgt
      · rintro ⟨i, hi, hgt⟩
        cases i with
        | zero =>
          exfalso
          simp only [List.take_zero, List.foldl_nil, List.get_eq_getElem,
            List.getElem_cons_zero] at hgt
          exact hc hgt
        | succ j =>
          refine ⟨j, ?_, ?_⟩
          · simp only [List.length_cons] at hi
            omega
          · simpa [hmax] using hgt

lemma saveLog_not_mem_scorenet_step (cfg : LoopCfg) (s : ℕ) :
    LogEvent.saveLog ∉ scorenet_step_events cfg s := by
  unfold scorenet_step_events
  split <;> split <;> simp

lemma saveLog_not_mem_scorenet_loop (cfg : LoopCfg) :
    LogEvent.saveLog ∉ scorenet_loop_events cfg := by
  unfold scorenet_loop_events
  intro h
  rw [List.mem_flatten] at h
  rcases h with ⟨l, hl, hmem⟩
  rcases List.mem_map.mp hl with ⟨s, _, rfl⟩
  exact saveLog_not_mem_scorenet_step cfg s hmem

lemma saveLog_not_mem_meta_step (cfg : LoopCfg) (s : ℕ) :
    LogEvent.saveLog ∉ meta_step_events cfg s := by
  unfold meta_step_events
  split <;> split <;> simp

lemma saveLog_not_mem_meta_loop (cfg : LoopCfg) :
    LogEvent.saveLog ∉ meta_loop_events cfg := by
  unfold meta_loop_events
  intro h
  rw [List.mem_flatten] at h
  rcases h with ⟨l, hl, hmem⟩
  rcases List.mem_map.mp hl with ⟨s, _, rfl⟩
  exact saveLog_not_mem_meta_step cfg s hmem

lemma saveCkpt_mem_scorenet_step (cfg : LoopCfg) (s t v : ℕ) :
    LogEvent.saveCkpt t v ∈ scorenet_step_events cfg s ↔
      (checkpointAt s cfg.snapshot_freq cfg.n_iters = true ∧ t = s
        ∧ v = s / cfg.snapshot_freq) := by
  by_cases hc : checkpointAt s cfg.snapshot_freq cfg.n_iters = true <;>
    by_cases he : s % cfg.eval_freq = 0 <;>
      simp [scorenet_step_events, hc, he]

lemma saveCkpt_mem_meta_step (cfg : LoopCfg) (s t v : ℕ) :
    LogEvent.saveCkpt t v ∈ meta_step_events cfg s ↔
      (checkpointAt s cfg.snapshot_freq cfg.n_iters = true ∧ t = s
        ∧ v = s / cfg.snapshot_freq) := by
  by_cases hc : checkpointAt s cfg.snapshot_freq cfg.n_iters = true <;>
    by_cases he : s % cfg.eval_freq = 0 <;>
      simp [meta_step_events, hc, he]

lemma saveCkpt_mem_scorenet_loop (cfg : LoopCfg) (t v : ℕ) :
    LogEvent.saveCkpt t v ∈ scorenet_loop_events cfg ↔
      (cfg.initial_step ≤ t ∧ t ≤ cfg.n_iters
        ∧ checkpointAt t cfg.snapshot_freq cfg.n_iters = true
        ∧ v = t / cfg.snapshot_freq) := by
  unfold scorenet_loop_events
  rw [List.mem_flatten]
  constructor
  · rintro ⟨l, hl, hmem⟩
    rcases List.mem_map.mp hl with ⟨s, hs, rfl⟩
    rcases (saveCkpt_mem_scorenet_step cfg s t v).mp hmem with ⟨hck, rfl, hv⟩
    have hrange := List.mem_range'_1.mp hs
    exact ⟨hrange.1, by omega, hck, hv⟩
  · rintro ⟨h1, h2, hck, hv⟩
    refine ⟨scorenet_step_events cfg t, List.mem_map.mpr ⟨t, ?_, rfl⟩, ?_⟩
    · exact List.mem_range'_1.mpr ⟨h1, by omega⟩
    · exact (saveCkpt_mem_scorenet_step cfg t t v).mpr ⟨hck, rfl, hv⟩

lemma saveCkpt_mem_meta_loop (cfg : LoopCfg) (t v : ℕ) :
    LogEvent.saveCkpt t v ∈ meta_loop_events cfg ↔
      (cfg.initial_step ≤ t ∧ t ≤ cfg.n_iters
        ∧ checkpointAt t cfg.snapshot_freq cfg.n_iters = true
        ∧ v = t / cfg.snapshot_freq) := by
  unfold meta_loop_events
  rw [List.mem_flatten]
  constructor
  · rintro ⟨l, hl, hmem⟩
    rcases List.mem_map.mp hl with ⟨s, hs, rfl⟩
    rcases (saveCkpt_mem_meta_step cfg s t v).mp hmem with ⟨hck, rfl, hv⟩
    have hrange := List.mem_range'_1.mp hs
    exact ⟨hrange.1, by omega, hck, hv⟩
  · rintro ⟨h1, h2, hck, hv⟩
    refine ⟨meta_step_events cfg t, List.mem_map.mpr ⟨t, ?_, rfl⟩, ?_⟩
    · exact List.mem_range'_1.mpr ⟨h1, by omega⟩
    · exact (saveCkpt_mem_meta_step cfg t t v).mpr ⟨hck, rfl, hv⟩

lemma ceil_rounds_mul_ge (n b : ℕ) (hb : 0 < b) :
    n ≤ numSamplingRounds n b * b := by
  unfold numSamplingRounds
  have h := Nat.div_add_mod (n + b - 1) b
  have h2 : (n + b - 1) % b < b := Nat.mod_lt _ hb
  rw [Nat.mul_comm]
  generalize hq : (n + b - 1) / b = q at *
  generalize hr : (n + b - 1) % b = r at *
  generalize hX : b * q = X at *
  omega

/-! ### Claim theorems -/

/-- Claim C1, evaluated at the failing input: with mean test losses 5 then
10 at the first two evaluation boundaries, the code leaves `is_best = True`
at the second boundary (the comparison is against the never-updated
sentinel `1e5` and the flag is never reset), while the claimed
minimum-seen-so-far rule yields `False` (10 is not below the earlier
minimum 5). -/
theorem scorenet_is_best_at_failing_input :
    scorenet_is_best_after [5, 10] = true
      ∧ spec_is_best_scorenet [5] 10 = false := by
  constructor
  · rfl
  · rfl

/-- Counterexample to claim C2 as stated: with Pearson correlations 1 then
0 at the first two evaluation boundaries, the code keeps `is_best = True`
at the second boundary (the flag is never reset to `False`), while the
claimed rule says it should be `False` (0 does not exceed the maximum 1
seen earlier). -/
theorem meta_is_best_cex :
    meta_is_best_after [1, 0] = true ∧ spec_is_best_meta [1] 0 = false := by
  constructor
  · rfl
  · rfl

/-- Claim C2 (amended): at every evaluation boundary, `is_best` is true
iff at that boundary or some earlier boundary of the run the Pearson
correlation strictly exceeded the maximum of all boundaries before it
(maximum initialized to the sentinel -1 and updated on improvement); once
set, the flag is never reset. -/
theorem meta_is_best_char (corrs : List ℚ) :
    meta_is_best_after corrs = true ↔
      ∃ i, ∃ h : i < corrs.length,
        spec_is_best_meta (corrs.take i) (corrs.get ⟨i, h⟩) = true := by
  unfold meta_is_best_after spec_is_best_meta
  simpa using meta_fold_char corrs (-1)

/-- Claim C3: when the lowercased SDE kind is `vpsde` the schedule is
constructed with sampling epsilon exactly 1e-3; when it is `vesde`, with
sampling epsilon exactly 1e-5; for every other kind the construction
raises the unsupported-SDE-kind error, no schedule is constructed, and
both training drivers fail before producing any loop event. -/
theorem sde_setup_eps (c : SDEConfig) :
    (strLower c.sde = "vpsde" →
      setupSDE c = Except.ok (SDE.vpsde c.beta_min c.beta_max c.num_scales, 1/1000))
  ∧ (strLower c.sde = "vesde" →
      setupSDE c = Except.ok (SDE.vesde c.sigma_min c.sigma_max c.num_scales, 1/100000))
  ∧ (strLower c.sde ≠ "vpsde" → strLower c.sde ≠ "vesde" →
      (setupSDE c = Except.error ("SDE " ++ c.sde ++ " unknown.")
        ∧ ∀ cfg : LoopCfg,
            scorenet_train c cfg = Except.error ("SDE " ++ c.sde ++ " unknown.")
          ∧ meta_surrogate_train c cfg = Except.error ("SDE " ++ c.sde ++ " unknown."))) := by
  refine ⟨?_, ?_, ?_⟩
  · intro h
    simp [setupSDE, h]
  · intro h
    have hne : ("vesde" : String) ≠ "vpsde" := by decide
    simp [setupSDE, h, hne]
  · intro h1 h2
    have herr : setupSDE c = Except.error ("SDE " ++ c.sde ++ " unknown.") := by
      simp [setupSDE, h1, h2]
    refine ⟨herr, ?_⟩
    intro cfg
    constructor
    · simp [scorenet_train, herr]
    · simp [meta_surrogate_train, herr]

/-- Witness for C3 at concrete kinds: the mixed-case identifier `VPSDE`
lowercases to the first supported kind and yields epsilon 1e-3, `vesde`
yields 1e-5, and the unsupported kind `edm` makes setup and the scorenet
training driver fail with the unsupported-SDE-kind error. -/
theorem sde_setup_eps_witness :
    setupSDE cVP = Except.ok (SDE.vpsde (1/10) 20 1000, 1/1000)
  ∧ setupSDE cVE = Except.ok (SDE.vesde (1/100) 50 1000, 1/100000)
  ∧ setupSDE cBad = Except.error "SDE edm unknown."
  ∧ scorenet_train cBad ⟨0, 10, 1, 1⟩ = Except.error "SDE edm unknown." := by
  have h1 := (sde_setup_eps cVP).1 (by decide)
  have h2 := (sde_setup_eps cVE).2.1 (by decide)
  have h3 := (sde_setup_eps cBad).2.2 (by decide) (by decide)
  exact ⟨h1, h2, h3.1, (h3.2 ⟨0, 10, 1, 1⟩).1⟩

/-- Claim C4: in both training loops a checkpoint is written at a step
exactly when the step is a nonzero multiple of `snapshot_freq` or equals
`n_iters`, tagged with save-index `step / snapshot_freq` (integer
division, as in the code's `//`); with `snapshot_freq = 100`,
`n_iters = 250` and initial step 0, checkpoints are written exactly at
steps 100, 200, 250 with save-indices 1, 2, 2. -/
theorem checkpoint_schedule (cfg : LoopCfg) (step save : ℕ)
    (_hfreq : 0 < cfg.snapshot_freq) :
    (checkpointAt step cfg.snapshot_freq cfg.n_iters = true ↔
      ((step ≠ 0 ∧ step % cfg.snapshot_freq = 0) ∨ step = cfg.n_iters))
  ∧ (LogEvent.saveCkpt step save ∈ scorenet_loop_events cfg ↔
      (cfg.initial_step ≤ step ∧ step ≤ cfg.n_iters
        ∧ checkpointAt step cfg.snapshot_freq cfg.n_iters = true
        ∧ save = step / cfg.snapshot_freq))
  ∧ (LogEvent.saveCkpt step save ∈ meta_loop_events cfg ↔
      (cfg.initial_step ≤ step ∧ step ≤ cfg.n_iters
        ∧ checkpointAt step cfg.snapshot_freq cfg.n_iters = true
        ∧ save = step / cfg.snapshot_freq))
  ∧ (scorenet_loop_events ⟨0, 250, 250, 100⟩).filter is_ckpt_event
      = [LogEvent.saveCkpt 100 1, LogEvent.saveCkpt 200 2,
         LogEvent.saveCkpt 250 2] := by
  refine ⟨?_, saveCkpt_mem_scorenet_loop cfg step save,
    saveCkpt_mem_meta_loop cfg step save, ?_⟩
  · simp [checkpointAt]
  · rfl

/-- Witness for C4: in the `snapshot_freq = 100`, `n_iters = 250` run,
step 100 writes a checkpoint with save-index 1 in both loops. -/
theorem checkpoint_schedule_witness :
    LogEvent.saveCkpt 100 1 ∈ scorenet_loop_events ⟨0, 250, 250, 100⟩
  ∧ LogEvent.saveCkpt 100 1 ∈ meta_loop_events ⟨0, 250, 250, 100⟩ := by
  have h := checkpoint_schedule ⟨0, 250, 250, 100⟩ 100 1 (by decide)
  exact ⟨h.2.1.mpr ⟨by decide, by decide, by decide, by decide⟩,
    h.2.2.1.mpr ⟨by decide, by decide, by decide, by decide⟩⟩

/-- Claim C5: `check_config` returns silently exactly when the two configs
agree on all 7 checked scalar fields, and raises the assertion error
exactly when they differ in at least one of them. -/
theorem check_config_iff (c1 c2 : CheckedConfig) :
    (check_config c1 c2 = Except.ok () ↔
      (c1.sigma_min = c2.sigma_min ∧ c1.sigma_max = c2.sigma_max
        ∧ c1.sde = c2.sde ∧ c1.continuous = c2.continuous
        ∧ c1.centered = c2.centered ∧ c1.max_node = c2.max_node
        ∧ c1.n_vocab = c2.n_vocab))
  ∧ (check_config c1 c2 = Except.error "AssertionError" ↔
      ¬(c1.sigma_min = c2.sigma_min ∧ c1.sigma_max = c2.sigma_max
        ∧ c1.sde = c2.sde ∧ c1.continuous = c2.continuous
        ∧ c1.centered = c2.centered ∧ c1.max_node = c2.max_node
        ∧ c1.n_vocab = c2.n_vocab)) := by
  unfold check_config
  split_ifs <;> simp_all

/-- Claim C6: in both training loops, exhaustion of the training-batch
iterator is never surfaced as an error when the dataset has at least one
batch: every pull succeeds, on exhaustion from a fresh iterator over the
loader; and an iterator over 3 batches pulled 5 times in one loop pass
yields batches 1, 2, 3, 1, 2 (the 4th and 5th pulls repeating batches 1
and 2) with no exception raised. -/
theorem cyclic_iter_no_error {α : Type} (loader it : List α)
    (h : loader ≠ []) :
    (∃ b it2, pullBatch loader it = Except.ok (b, it2))
  ∧ pullN [1, 2, 3] 5 [1, 2, 3] = Except.ok ([1, 2, 3, 1, 2], [3]) := by
  constructor
  · cases it with
    | cons b rest => exact ⟨b, rest, rfl⟩
    | nil =>
      cases loader with
      | nil => exact absurd rfl h
      | cons b rest => exact ⟨b, rest, rfl⟩
  · rfl

/-- Witness for C6: a pull on an exhausted iterator over the nonempty
loader `[1, 2, 3]` succeeds, and the 5-pull scenario yields batches
1, 2, 3, 1, 2. -/
theorem cyclic_iter_no_error_witness :
    (∃ b it2, pullBatch [1, 2, 3] ([] : List ℕ) = Except.ok (b, it2))
  ∧ pullN [1, 2, 3] 5 [1, 2, 3] = Except.ok ([1, 2, 3, 1, 2], [3]) :=
  cyclic_iter_no_error [1, 2, 3] [] (by decide)

/-- Claim C7: the standalone evaluation driver executes exactly
`ceil(num_samples / batch_size)` sampling rounds, truncates the
concatenated quantized samples to exactly `num_samples` descriptors
(whenever every round returns `batch_size` descriptors), and logs the
single metric evaluation under the fixed step index 1. -/
theorem eval_driver_exact {α : Type} (num_samples batch_size : ℕ)
    (sampleRound : ℕ → List α) (hb : 0 < batch_size)
    (hlen : ∀ i, (sampleRound i).length = batch_size) :
    (scorenet_evaluate num_samples batch_size sampleRound).numRounds
      = numSamplingRounds num_samples batch_size
  ∧ ((scorenet_evaluate num_samples batch_size sampleRound).archList).length
      = num_samples
  ∧ (scorenet_evaluate num_samples batch_size sampleRound).logWriteStep = 1 := by
  refine ⟨rfl, ?_, rfl⟩
  show ((((List.range (numSamplingRounds num_samples batch_size)).map
      sampleRound).flatten).take num_samples).length = num_samples
  have hflat : (((List.range (numSamplingRounds num_samples batch_size)).map
      sampleRound).flatten).length
      = numSamplingRounds num_samples batch_size * batch_size := by
    rw [List.length_flatten, List.map_map]
    have hmap : (List.range (numSamplingRounds num_samples batch_size)).map
        (List.length ∘ sampleRound)
        = List.replicate (numSamplingRounds num_samples batch_size) batch_size := by
      apply List.eq_replicate_iff.mpr
      constructor
      · simp
      · intro x hx
        rcases List.mem_map.mp hx with ⟨i, _, rfl⟩
        exact hlen i
    rw [hmap, List.sum_const_nat]
  rw [List.length_take, hflat]
  exact Nat.min_eq_left (ceil_rounds_mul_ge num_samples batch_size hb)

/-- Witness for C7: `num_samples = 37`, `batch_size = 16` gives exactly
`ceil(37/16) = 3` sampling rounds and a final descriptor list of length
exactly 37, logged under step index 1. -/
theorem eval_driver_exact_witness :
    (scorenet_evaluate 37 16 (fun _ => List.replicate 16 (0 : ℕ))).numRounds = 3
  ∧ ((scorenet_evaluate 37 16 (fun _ => List.replicate 16 (0 : ℕ))).archList).length = 37
  ∧ (scorenet_evaluate 37 16 (fun _ => List.replicate 16 (0 : ℕ))).logWriteStep = 1 := by
  have h := eval_driver_exact 37 16 (fun _ => List.replicate 16 (0 : ℕ))
    (by decide) (fun i => by simp)
  exact ⟨h.1.trans (by decide), h.2.1, h.2.2⟩

/-- Claim C8: the snapshot-sampling block copies the EMA shadow weights
into the live model parameters and never restores the previous weights,
so training resumes with the model parameters equal to the EMA shadow;
the optimizer state, step counter, EMA shadow parameters and config are
unchanged by the block. -/
theorem ema_swap_frame {P O C : Type} (s : TrainState P O C) :
    (snapshot_sampling_block s).params = s.ema.shadow
  ∧ (snapshot_sampling_block s).ema.shadow = s.ema.shadow
  ∧ (snapshot_sampling_block s).opt = s.opt
  ∧ (snapshot_sampling_block s).step = s.step
  ∧ (snapshot_sampling_block s).config = s.config :=
  ⟨rfl, rfl, rfl, rfl, rfl⟩

/-- Counterexample to claim C9 as stated: for a run with
`initial_step = 0`, `n_iters = 2`, `eval_freq = 1`, `snapshot_freq = 1`,
the meta-surrogate loop reaches the final step but its trace contains no
`save_log` call at all, not exactly one. -/
theorem save_log_claim_cex :
    (meta_run_events ⟨0, 2, 1, 1⟩).count LogEvent.saveLog = 0
  ∧ ¬ ((meta_run_events ⟨0, 2, 1, 1⟩).count LogEvent.saveLog = 1) := by
  constructor
  · rfl
  · decide

/-- Claim C9 (amended): the scorenet training loop flushes the persistent
log exactly once, after all loop-body events; the meta-surrogate training
loop never calls the logger's save operation. -/
theorem save_log_amended (cfg : LoopCfg) :
    (scorenet_run_events cfg).count LogEvent.saveLog = 1
  ∧ scorenet_run_events cfg = scorenet_loop_events cfg ++ [LogEvent.saveLog]
  ∧ LogEvent.saveLog ∉ scorenet_loop_events cfg
  ∧ (meta_run_events cfg).count LogEvent.saveLog = 0 := by
  refine ⟨?_, rfl, saveLog_not_mem_scorenet_loop cfg, ?_⟩
  · unfold scorenet_run_events
    rw [List.count_append,
      List.count_eq_zero.mpr (saveLog_not_mem_scorenet_loop cfg)]
    rfl
  · exact List.count_eq_zero.mpr (saveLog_not_mem_meta_loop cfg)

/-- Claim C10: dispatch on `model_type` is a plain dict lookup that fails
with a key-lookup error (carrying the missing key) for every unregistered
key; both `scorenet` and `meta_surrogate` are registered for training
while only `scorenet` is registered for evaluation, so
`evaluate('meta_surrogate')` fails with a key-lookup error. -/
theorem dispatch_key_errors (k : String) :
    (train k = Except.error k ↔ (k ≠ "scorenet" ∧ k ≠ "meta_surrogate"))
  ∧ (evaluate k = Except.error k ↔ k ≠ "scorenet")
  ∧ evaluate "meta_surrogate" = Except.error "meta_surrogate"
  ∧ train "meta_surrogate" = Except.ok Task.meta_surrogate_train_task
  ∧ train "scorenet" = Except.ok Task.scorenet_train_task
  ∧ evaluate "scorenet" = Except.ok Task.scorenet_evaluate_task := by
  refine ⟨?_, ?_, rfl, rfl, rfl, rfl⟩
  · by_cases h1 : ("scorenet" : String) = k
    · subst h1
      simp [train, dictLookup, run_train_dict]
    · by_cases h2 : ("meta_surrogate" : String) = k
      · subst h2
        simp [train, dictLookup, run_train_dict]
      · simp [train, dictLookup, run_train_dict, h1, h2]
        exact ⟨fun hk => absurd hk.symm h1, fun hk => absurd hk.symm h2⟩
  · by_cases h1 : ("scorenet" : String) = k
    · subst h1
      simp [evaluate, dictLookup, run_eval_dict]
    · simp [evaluate, dictLookup, run_eval_dict, h1]
      exact fun hk => absurd hk.symm h1

end DiffusionNAG
